import Mathlib

/-!
Verification of the dataset-layout resolver (`nipoppy/layout.py`).

Paths are modelled as lists of components (`List String`); the Python
`Path.__truediv__` join on a relative right-hand side is list append.
The schema document is a finite association list from labels to entries.
The filesystem is modelled as an existence predicate `Path → Bool` for
`validate`, and as a map `Path → Option Document` for the schema-document
loading done at construction time (the JSON reading itself is done by the
external collaborator `load_json`, so the map directly yields the parsed
document).  Python methods become Lean functions taking the object as the
first argument; `functools.cached_property` memoization is pure caching of
immutable data and needs no model.
-/

namespace Nipoppy

/-- A filesystem path, as its list of components. -/
abbrev Path := List String

/-- One schema row (`PathInfo` in the source): a relative path, an optional
description, and the two class-level flags `_is_directory` / `_is_required`
that the `DpathInfo` / `FpathInfo` / `OptionalFpathInfo` subclasses fix. -/
structure PathInfo where
  path : Path
  description : Option String
  _is_directory : Bool
  _is_required : Bool
deriving DecidableEq, Repr

/-- Model of `DpathInfo`: a directory entry (`_is_directory = True`, `_is_required = True`). -/
def DpathInfo (path : Path) (description : Option String) : PathInfo :=
  ⟨path, description, true, true⟩

/-- Model of `FpathInfo`: a required file entry (`_is_directory = False`, `_is_required = True`). -/
def FpathInfo (path : Path) (description : Option String) : PathInfo :=
  ⟨path, description, false, true⟩

/-- Model of `OptionalFpathInfo`: an optional file entry (`_is_required = False`). -/
def OptionalFpathInfo (path : Path) (description : Option String) : PathInfo :=
  ⟨path, description, false, false⟩

/-- Model of `LayoutConfig`: the 23 declared schema fields, in declaration order. -/
structure LayoutConfig where
  dpath_bids : PathInfo
  dpath_derivatives : PathInfo
  dpath_sourcedata : PathInfo
  dpath_downloads : PathInfo
  dpath_proc : PathInfo
  dpath_releases : PathInfo
  dpath_containers : PathInfo
  dpath_descriptors : PathInfo
  dpath_invocations : PathInfo
  dpath_scripts : PathInfo
  dpath_pybids : PathInfo
  dpath_bids_db : PathInfo
  dpath_bids_ignore_patterns : PathInfo
  dpath_scratch : PathInfo
  dpath_raw_dicom : PathInfo
  dpath_logs : PathInfo
  dpath_tabular : PathInfo
  dpath_assessments : PathInfo
  dpath_demographics : PathInfo
  fpath_config : PathInfo
  fpath_manifest : PathInfo
  fpath_doughnut : PathInfo
  fpath_imaging_bagel : PathInfo
deriving DecidableEq, Repr

/-- The closed set of labels, in the declaration order of `LayoutConfig`
(the order `model_dump().keys()` yields). -/
def knownLabels : List String :=
  ["dpath_bids", "dpath_derivatives", "dpath_sourcedata", "dpath_downloads",
   "dpath_proc", "dpath_releases", "dpath_containers", "dpath_descriptors",
   "dpath_invocations", "dpath_scripts", "dpath_pybids", "dpath_bids_db",
   "dpath_bids_ignore_patterns", "dpath_scratch", "dpath_raw_dicom",
   "dpath_logs", "dpath_tabular", "dpath_assessments", "dpath_demographics",
   "fpath_config", "fpath_manifest", "fpath_doughnut", "fpath_imaging_bagel"]

/-- Model of `LayoutConfig.path_labels`: all path labels defined in the layout,
in declaration order (constant across instances). -/
def LayoutConfig.path_labels (_c : LayoutConfig) : List String := knownLabels

/-- Model of `LayoutConfig.path_infos`: all `PathInfo` objects, aligned with `path_labels`. -/
def LayoutConfig.path_infos (c : LayoutConfig) : List PathInfo :=
  [c.dpath_bids, c.dpath_derivatives, c.dpath_sourcedata, c.dpath_downloads,
   c.dpath_proc, c.dpath_releases, c.dpath_containers, c.dpath_descriptors,
   c.dpath_invocations, c.dpath_scripts, c.dpath_pybids, c.dpath_bids_db,
   c.dpath_bids_ignore_patterns, c.dpath_scratch, c.dpath_raw_dicom,
   c.dpath_logs, c.dpath_tabular, c.dpath_assessments, c.dpath_demographics,
   c.fpath_config, c.fpath_manifest, c.fpath_doughnut, c.fpath_imaging_bagel]

/-- Model of `LayoutConfig.get_path_info`: the `PathInfo` associated with a label
(`getattr` on the config object); `none` for an unknown label. -/
def LayoutConfig.get_path_info (c : LayoutConfig) (label : String) : Option PathInfo :=
  if label = "dpath_bids" then some c.dpath_bids
  else if label = "dpath_derivatives" then some c.dpath_derivatives
  else if label = "dpath_sourcedata" then some c.dpath_sourcedata
  else if label = "dpath_downloads" then some c.dpath_downloads
  else if label = "dpath_proc" then some c.dpath_proc
  else if label = "dpath_releases" then some c.dpath_releases
  else if label = "dpath_containers" then some c.dpath_containers
  else if label = "dpath_descriptors" then some c.dpath_descriptors
  else if label = "dpath_invocations" then some c.dpath_invocations
  else if label = "dpath_scripts" then some c.dpath_scripts
  else if label = "dpath_pybids" then some c.dpath_pybids
  else if label = "dpath_bids_db" then some c.dpath_bids_db
  else if label = "dpath_bids_ignore_patterns" then some c.dpath_bids_ignore_patterns
  else if label = "dpath_scratch" then some c.dpath_scratch
  else if label = "dpath_raw_dicom" then some c.dpath_raw_dicom
  else if label = "dpath_logs" then some c.dpath_logs
  else if label = "dpath_tabular" then some c.dpath_tabular
  else if label = "dpath_assessments" then some c.dpath_assessments
  else if label = "dpath_demographics" then some c.dpath_demographics
  else if label = "fpath_config" then some c.fpath_config
  else if label = "fpath_manifest" then some c.fpath_manifest
  else if label = "fpath_doughnut" then some c.fpath_doughnut
  else if label = "fpath_imaging_bagel" then some c.fpath_imaging_bagel
  else none

/-- One entry of the schema document: the sub-document for a label. -/
structure PathInfoDoc where
  path : Path
  description : Option String
deriving DecidableEq, Repr

/-- A schema document: a mapping from labels to entries, as an association list. -/
abbrev Document := List (String × PathInfoDoc)

/-- Look a label up in a document. -/
def Document.lookupLabel (doc : Document) (label : String) : Option PathInfoDoc :=
  (doc.find? (fun e => e.1 == label)).map (fun e => e.2)

/-- Errors raised during `DatasetLayout.__init__`: the layout-config file not
found (`FileNotFoundError`, the spec's `SchemaDocumentNotFoundError`), or
pydantic validation failure (the spec's `SchemaValidationError`). -/
inductive LayoutError where
  | fileNotFound : Path → LayoutError
  | schemaValidation : LayoutError
deriving DecidableEq, Repr

/-- The entry a document holds for a label (meaningful when the label is
present; the default value is never reached on validated documents). -/
def Document.entry (doc : Document) (label : String) : PathInfoDoc :=
  (doc.lookupLabel label).getD ⟨[], none⟩

/-- Turn one document entry into a `PathInfo` via the given entry-kind
constructor (`DpathInfo`, `FpathInfo` or `OptionalFpathInfo`). -/
def Document.entryInfo (doc : Document)
    (kind : Path → Option String → PathInfo) (label : String) : PathInfo :=
  kind (doc.entry label).path (doc.entry label).description

/-- Build a `LayoutConfig` from a document all of whose required labels are
present; `dpath_*` fields go through `DpathInfo`, `fpath_config` and
`fpath_manifest` through `FpathInfo`, `fpath_doughnut` and
`fpath_imaging_bagel` through `OptionalFpathInfo`, exactly as the field types
of the source `LayoutConfig` class prescribe. -/
def mkConfigOfDoc (doc : Document) : LayoutConfig :=
  LayoutConfig.mk
    (doc.entryInfo DpathInfo "dpath_bids")
    (doc.entryInfo DpathInfo "dpath_derivatives")
    (doc.entryInfo DpathInfo "dpath_sourcedata")
    (doc.entryInfo DpathInfo "dpath_downloads")
    (doc.entryInfo DpathInfo "dpath_proc")
    (doc.entryInfo DpathInfo "dpath_releases")
    (doc.entryInfo DpathInfo "dpath_containers")
    (doc.entryInfo DpathInfo "dpath_descriptors")
    (doc.entryInfo DpathInfo "dpath_invocations")
    (doc.entryInfo DpathInfo "dpath_scripts")
    (doc.entryInfo DpathInfo "dpath_pybids")
    (doc.entryInfo DpathInfo "dpath_bids_db")
    (doc.entryInfo DpathInfo "dpath_bids_ignore_patterns")
    (doc.entryInfo DpathInfo "dpath_scratch")
    (doc.entryInfo DpathInfo "dpath_raw_dicom")
    (doc.entryInfo DpathInfo "dpath_logs")
    (doc.entryInfo DpathInfo "dpath_tabular")
    (doc.entryInfo DpathInfo "dpath_assessments")
    (doc.entryInfo DpathInfo "dpath_demographics")
    (doc.entryInfo FpathInfo "fpath_config")
    (doc.entryInfo FpathInfo "fpath_manifest")
    (doc.entryInfo OptionalFpathInfo "fpath_doughnut")
    (doc.entryInfo OptionalFpathInfo "fpath_imaging_bagel")

/-- Model of `LayoutConfig(**load_json(...))`: pydantic validation of the document
against the `LayoutConfig` model.  The model declares
`model_config = ConfigDict(extra="forbid")` and 23 required fields, so
validation accepts exactly the documents whose keys all belong to the closed
label set and which supply every one of the 23 labels (the explicit
set-difference checks the design notes of the spec describe). -/
def loadLayoutConfig (doc : Document) : Except LayoutError LayoutConfig :=
  if (∀ e ∈ doc, e.1 ∈ knownLabels) ∧ (∀ label ∈ knownLabels, (doc.lookupLabel label).isSome)
  then .ok (mkConfigOfDoc doc)
  else .error .schemaValidation

/-- Modelled from the spec: the packaged default layout document
(`nipoppy.utils.FPATH_DEFAULT_LAYOUT`) is an external resource not under
`src/`; the spec only says the default document is a fixed, packaged resource.
This constant stands for its path. -/
def FPATH_DEFAULT_LAYOUT : Path := ["nipoppy", "data", "layouts", "layout-default.json"]

/-- Model of `DatasetLayout`: binds a loaded `LayoutConfig` to one dataset root.
The fields are exactly the instance attributes `__init__` assigns
(`dpath_root`, `fpath_spec`, `config`, `dname_pipeline_work`,
`dname_pipeline_output`); the bare `self.dpath_bids: Path` annotations in
`__init__` assign nothing and so are not fields. -/
structure DatasetLayout where
  dpath_root : Path
  fpath_spec : Path
  config : LayoutConfig
  dname_pipeline_work : String
  dname_pipeline_output : String
deriving DecidableEq, Repr

/-- Model of `DatasetLayout.__init__`: resolve the optional config path against the
default, fail with `FileNotFoundError` when the document does not exist, load
and validate the document, and record the instance attributes.  `docFs` is the
document filesystem; the dataset root is only stored, never accessed. -/
def DatasetLayout.init (docFs : Path → Option Document) (dpath_root : Path)
    (fpath_config : Option Path) : Except LayoutError DatasetLayout :=
  match docFs (fpath_config.getD FPATH_DEFAULT_LAYOUT) with
  | none => .error (.fileNotFound (fpath_config.getD FPATH_DEFAULT_LAYOUT))
  | some doc =>
    match loadLayoutConfig doc with
    | .error e => .error e
    | .ok config =>
      .ok ⟨dpath_root, fpath_config.getD FPATH_DEFAULT_LAYOUT, config, "work", "output"⟩

/-- Model of `DatasetLayout.get_full_path`: build a full path from a relative path. -/
def DatasetLayout.get_full_path (l : DatasetLayout) (path : Path) : Path :=
  l.dpath_root ++ path

/-- A value an attribute access on a `DatasetLayout` can produce. -/
inductive AttrValue where
  | pathVal : Path → AttrValue
  | configVal : LayoutConfig → AttrValue
  | strVal : String → AttrValue
deriving DecidableEq, Repr

/-- The `AttributeError` raised for a name that is neither a concrete
attribute nor a schema label; carries the requested name. -/
structure AttributeError where
  name : String
deriving DecidableEq, Repr

/-- The names of the concrete instance attributes assigned in `__init__`
(the first tier of `__getattribute__`: `super().__getattribute__` succeeds
exactly on these data attributes). -/
def concreteFieldNames : List String :=
  ["dpath_root", "fpath_spec", "config", "dname_pipeline_work", "dname_pipeline_output"]

/-- First tier of attribute lookup: `super().__getattribute__(name)` over the
instance attributes assigned in `__init__`. -/
def concreteAttr (l : DatasetLayout) (name : String) : Option AttrValue :=
  if name = "dpath_root" then some (.pathVal l.dpath_root)
  else if name = "fpath_spec" then some (.pathVal l.fpath_spec)
  else if name = "config" then some (.configVal l.config)
  else if name = "dname_pipeline_work" then some (.strVal l.dname_pipeline_work)
  else if name = "dname_pipeline_output" then some (.strVal l.dname_pipeline_output)
  else none

/-- Model of `DatasetLayout.__getattribute__`: try the concrete attributes first; on
`AttributeError`, fall back to the schema when the name is a declared label,
synthesizing `get_full_path` of the label's relative path; otherwise re-raise
the `AttributeError`.  (Methods are modelled as the top-level Lean functions
in this file, not as attributes.) -/
def DatasetLayout.getattribute (l : DatasetLayout) (name : String) :
    Except AttributeError AttrValue :=
  match concreteAttr l name with
  | some v => .ok v
  | none =>
    if name ∈ l.config.path_labels then
      match l.config.get_path_info name with
      | some info => .ok (.pathVal (l.get_full_path info.path))
      | none => .error ⟨name⟩
    else
      .error ⟨name⟩

/-- Model of `DatasetLayout.get_paths`: all directory or file paths, filtered by the
`directory` and `include_optional` flags. -/
def DatasetLayout.get_paths (l : DatasetLayout) (directory : Bool)
    (include_optional : Bool) : List Path :=
  (l.config.path_infos.filter
      (fun info => directory == info._is_directory
        && (include_optional || info._is_required))).map
    (fun info => l.get_full_path info.path)

/-- Model of `DatasetLayout.dpaths`: all required directory paths
(`get_paths(directory=True)` with the default `include_optional=False`). -/
def DatasetLayout.dpaths (l : DatasetLayout) : List Path :=
  l.get_paths true false

/-- Model of `DatasetLayout.fpaths`: all required file paths
(`get_paths(directory=False)` with the default `include_optional=False`). -/
def DatasetLayout.fpaths (l : DatasetLayout) : List Path :=
  l.get_paths false false

/-- Model of `DatasetLayout.dpath_descriptions`: directory paths with their
(present) description strings. -/
def DatasetLayout.dpath_descriptions (l : DatasetLayout) : List (Path × Option String) :=
  (l.config.path_infos.filter
      (fun info => info._is_directory && info.description.isSome)).map
    (fun info => (l.get_full_path info.path, info.description))

/-- Model of `DatasetLayout._find_missing_paths`: the missing directory paths (a list
comprehension over `dpaths`) followed by a loop appending each missing file
path from `fpaths`.  `fsExists` models `Path.exists`. -/
def DatasetLayout.find_missing_paths (l : DatasetLayout) (fsExists : Path → Bool) :
    List Path :=
  let missing := l.dpaths.filter (fun dpath => !fsExists dpath)
  l.fpaths.foldl (fun acc fpath => if fsExists fpath then acc else acc ++ [fpath]) missing

/-- The `FileNotFoundError` raised by `validate` (the spec's
`MissingPathsError`): its message carries the whole missing-path list. -/
structure MissingPathsError where
  missing : List Path
deriving DecidableEq, Repr

/-- Model of `DatasetLayout.validate`: raise a `MissingPathsError` listing every
missing required path, or return `True`. -/
def DatasetLayout.validate (l : DatasetLayout) (fsExists : Path → Bool) :
    Except MissingPathsError Bool :=
  let missing_paths := l.find_missing_paths fsExists
  if missing_paths.length ≠ 0 then .error ⟨missing_paths⟩ else .ok true

/-- Modelled from the spec: the pipeline-tag formatter
(`nipoppy.utils.get_pipeline_tag`) is an external collaborator not under
`src/`; the spec describes it as a pure function combining the pipeline name,
version and the optional participant/session identifiers into one
filesystem-safe string, degrading to fewer components when identifiers are
absent. -/
def get_pipeline_tag (pipeline_name pipeline_version : String)
    (participant session : Option String) : String :=
  String.intercalate "-"
    ([pipeline_name, pipeline_version] ++ participant.toList ++ session.toList)

/-- Model of `DatasetLayout.get_dpath_pipeline`: `self.dpath_derivatives` (resolved via
the `__getattribute__` schema fallback, i.e.
`get_full_path(config.dpath_derivatives.path)`) joined with the pipeline name
and version. -/
def DatasetLayout.get_dpath_pipeline (l : DatasetLayout)
    (pipeline_name pipeline_version : String) : Path :=
  l.get_full_path l.config.dpath_derivatives.path ++ [pipeline_name, pipeline_version]

/-- Model of `DatasetLayout.get_dpath_pipeline_work`: the pipeline directory joined
with `dname_pipeline_work` and the pipeline tag. -/
def DatasetLayout.get_dpath_pipeline_work (l : DatasetLayout)
    (pipeline_name pipeline_version : String) (participant session : Option String) :
    Path :=
  l.get_dpath_pipeline pipeline_name pipeline_version
    ++ [l.dname_pipeline_work,
        get_pipeline_tag pipeline_name pipeline_version participant session]

/-- Model of `DatasetLayout.get_dpath_pipeline_output`: the pipeline directory joined
with `dname_pipeline_output`; takes no participant or session. -/
def DatasetLayout.get_dpath_pipeline_output (l : DatasetLayout)
    (pipeline_name pipeline_version : String) : Path :=
  l.get_dpath_pipeline pipeline_name pipeline_version ++ [l.dname_pipeline_output]

/-- Model of `DatasetLayout.get_dpath_bids_db`: `self.dpath_bids_db` (schema fallback)
joined with the pipeline tag. -/
def DatasetLayout.get_dpath_bids_db (l : DatasetLayout)
    (pipeline_name pipeline_version : String) (participant session : Option String) :
    Path :=
  l.get_full_path l.config.dpath_bids_db.path
    ++ [get_pipeline_tag pipeline_name pipeline_version participant session]

/-- Modelled from the spec: the contents of the packaged default layout
document are an external resource not under `src/`.  The spec says the default
document supplies every label of the closed set (and maps the BIDS label to
`bids`); the relative paths below follow the directory naming the spec's
overview lists (raw data, derivatives, scratch space, logs, tabular data,
processing resources). -/
def defaultLayoutDocument : Document :=
  [("dpath_bids", ⟨["bids"], some "raw dataset converted to BIDS"⟩),
   ("dpath_derivatives", ⟨["derivatives"], some "processed imaging data"⟩),
   ("dpath_sourcedata", ⟨["sourcedata"], some "raw and organized source data"⟩),
   ("dpath_downloads", ⟨["downloads"], none⟩),
   ("dpath_proc", ⟨["proc"], none⟩),
   ("dpath_releases", ⟨["releases"], none⟩),
   ("dpath_containers", ⟨["proc", "containers"], none⟩),
   ("dpath_descriptors", ⟨["proc", "descriptors"], none⟩),
   ("dpath_invocations", ⟨["proc", "invocations"], none⟩),
   ("dpath_scripts", ⟨["proc", "scripts"], none⟩),
   ("dpath_pybids", ⟨["proc", "pybids"], none⟩),
   ("dpath_bids_db", ⟨["proc", "pybids", "bids_db"], none⟩),
   ("dpath_bids_ignore_patterns", ⟨["proc", "pybids", "ignore_patterns"], none⟩),
   ("dpath_scratch", ⟨["scratch"], none⟩),
   ("dpath_raw_dicom", ⟨["scratch", "raw_dicom"], none⟩),
   ("dpath_logs", ⟨["scratch", "logs"], none⟩),
   ("dpath_tabular", ⟨["tabular"], none⟩),
   ("dpath_assessments", ⟨["tabular", "assessments"], none⟩),
   ("dpath_demographics", ⟨["tabular", "demographics"], none⟩),
   ("fpath_config", ⟨["proc", "global_configs.json"], none⟩),
   ("fpath_manifest", ⟨["tabular", "manifest.csv"], none⟩),
   ("fpath_doughnut", ⟨["scratch", "raw_dicom", "doughnut.csv"], none⟩),
   ("fpath_imaging_bagel", ⟨["derivatives", "bagel.csv"], none⟩)]

/-- The schema loaded from the default document. -/
def defaultConfig : LayoutConfig := mkConfigOfDoc defaultLayoutDocument

/-- A document filesystem holding only the default layout document. -/
def exampleDocFs : Path → Option Document :=
  fun p => if p = FPATH_DEFAULT_LAYOUT then some defaultLayoutDocument else none

/-- The layout `DatasetLayout(dpath_root="data/study1")` constructs with the
default schema document. -/
def exampleLayout : DatasetLayout :=
  ⟨["data", "study1"], FPATH_DEFAULT_LAYOUT, defaultConfig, "work", "output"⟩

/-- The spec's `listPaths(directory, includeOptional)` contract, written from
the spec's words for comparison with `DatasetLayout.get_paths`: filter schema
entries by `isDirectory == directory` and, unless `includeOptional`, by
`isRequired == true`; map each through resolution against the root. -/
def listPaths_spec (l : DatasetLayout) (directory include_optional : Bool) : List Path :=
  ((l.config.path_infos.filter (fun info => info._is_directory == directory)).filter
      (fun info => include_optional || info._is_required)).map
    (fun info => l.get_full_path info.path)

/-- Replace the dataset root of a layout, keeping everything else. -/
def setRoot (l : DatasetLayout) (root : Path) : DatasetLayout :=
  ⟨root, l.fpath_spec, l.config, l.dname_pipeline_work, l.dname_pipeline_output⟩

/-- The full required-path list of the example layout: what `validate` reports
on a filesystem where nothing exists. -/
def exampleMissing : List Path :=
  exampleLayout.dpaths ++ exampleLayout.fpaths

/-- A document with one unknown label and no required label at all. -/
def badDocument : Document :=
  [("bogus_label", ⟨["x"], none⟩)]

/-- Constructing on `exampleDocFs` succeeds and yields `exampleLayout`. -/
theorem exampleLayout_init :
    DatasetLayout.init exampleDocFs ["data", "study1"] none = .ok exampleLayout := rfl

/-- An attribute name outside `concreteFieldNames` fails the first lookup tier. -/
theorem concreteAttr_eq_none (l : DatasetLayout) (name : String)
    (h : name ∉ concreteFieldNames) : concreteAttr l name = none := by
  simp only [concreteFieldNames, List.mem_cons, List.not_mem_nil, or_false, not_or] at h
  obtain ⟨h1, h2, h3, h4, h5⟩ := h
  simp [concreteAttr, h1, h2, h3, h4, h5]

/-- C1: for every label declared in the loaded schema, attribute-style lookup
on the `DatasetLayout` resolves to `dpath_root` joined with the schema's
declared relative path for that label (every operation of the resolver is a
pure function of the immutable layout, so this is independent of any
operations performed before), and the concrete fields `dpath_root`, `config`
and `fpath_spec` are served by the first lookup tier, taking precedence over
the schema fallback. -/
theorem resolve_label_is_root_join_schema_path (l : DatasetLayout) (label : String)
    (hlabel : label ∈ l.config.path_labels) :
    (∃ info, l.config.get_path_info label = some info ∧
        l.getattribute label = .ok (.pathVal (l.dpath_root ++ info.path)))
      ∧ l.getattribute "dpath_root" = .ok (.pathVal l.dpath_root)
      ∧ l.getattribute "config" = .ok (.configVal l.config)
      ∧ l.getattribute "fpath_spec" = .ok (.pathVal l.fpath_spec) := by
  refine ⟨?_, rfl, rfl, rfl⟩
  simp only [LayoutConfig.path_labels, knownLabels, List.mem_cons, List.not_mem_nil,
    or_false] at hlabel
  rcases hlabel with rfl | rfl | rfl | rfl | rfl | rfl | rfl | rfl | rfl | rfl | rfl | rfl |
    rfl | rfl | rfl | rfl | rfl | rfl | rfl | rfl | rfl | rfl | rfl
  all_goals exact ⟨_, rfl, rfl⟩

/-- Witness for C1 at the example layout and the label `dpath_bids`. -/
theorem resolve_label_is_root_join_schema_path_witness :
    "dpath_bids" ∈ exampleLayout.config.path_labels ∧
      ((∃ info, exampleLayout.config.get_path_info "dpath_bids" = some info ∧
          exampleLayout.getattribute "dpath_bids" =
            .ok (.pathVal (exampleLayout.dpath_root ++ info.path)))
        ∧ exampleLayout.getattribute "dpath_root" = .ok (.pathVal exampleLayout.dpath_root)
        ∧ exampleLayout.getattribute "config" = .ok (.configVal exampleLayout.config)
        ∧ exampleLayout.getattribute "fpath_spec" = .ok (.pathVal exampleLayout.fpath_spec)) :=
  ⟨by decide, resolve_label_is_root_join_schema_path exampleLayout "dpath_bids" (by decide)⟩

/-- C5: attribute-style lookup for a name that is neither a concrete field of
the resolver nor a declared schema label raises an `AttributeError` carrying
that name — it never silently returns a synthesized path. -/
theorem unknown_attribute_raises (l : DatasetLayout) (name : String)
    (hconcrete : name ∉ concreteFieldNames)
    (hlabel : name ∉ l.config.path_labels) :
    l.getattribute name = .error ⟨name⟩ := by
  unfold DatasetLayout.getattribute
  rw [concreteAttr_eq_none l name hconcrete]
  simp [hlabel]

/-- Witness for C5 at the example layout and the name `not_a_real_label`. -/
theorem unknown_attribute_raises_witness :
    "not_a_real_label" ∉ concreteFieldNames ∧
      "not_a_real_label" ∉ exampleLayout.config.path_labels ∧
      exampleLayout.getattribute "not_a_real_label" = .error ⟨"not_a_real_label"⟩ :=
  ⟨by decide, by decide,
    unknown_attribute_raises exampleLayout "not_a_real_label" (by decide) (by decide)⟩

/-- C4: `get_paths` returns exactly the schema entries whose directory kind
matches the `directory` flag and which are required unless `include_optional`
is set, each resolved against the root, in schema declaration order (the
spec-side `listPaths_spec`); `dpaths` and `fpaths` are the `(true, false)` and
`(false, false)` specializations. -/
theorem get_paths_matches_spec_filter (l : DatasetLayout) (directory include_optional : Bool) :
    l.get_paths directory include_optional = listPaths_spec l directory include_optional
      ∧ l.dpaths = l.get_paths true false
      ∧ l.fpaths = l.get_paths false false := by
  refine ⟨?_, rfl, rfl⟩
  unfold DatasetLayout.get_paths listPaths_spec
  rw [List.filter_filter]
  congr 1
  apply List.filter_congr
  intro info _
  cases directory <;> cases info._is_directory <;>
    cases include_optional <;> cases info._is_required <;> rfl

/-- The missing-file loop of `_find_missing_paths` appends exactly the
filter of the traversed list. -/
theorem foldl_missing_append (fsExists : Path → Bool) (fpaths : List Path) (acc : List Path) :
    fpaths.foldl (fun acc fpath => if fsExists fpath then acc else acc ++ [fpath]) acc
      = acc ++ fpaths.filter (fun fpath => !fsExists fpath) := by
  induction fpaths generalizing acc with
  | nil => simp
  | cons head tail ih =>
    cases h : fsExists head <;>
      simp [List.foldl_cons, h, ih, List.filter_cons, List.append_assoc]

/-- Model of `_find_missing_paths` in closed form: the filter of the required paths. -/
theorem find_missing_paths_eq_filter (l : DatasetLayout) (fsExists : Path → Bool) :
    l.find_missing_paths fsExists = (l.dpaths ++ l.fpaths).filter (fun p => !fsExists p) := by
  unfold DatasetLayout.find_missing_paths
  rw [foldl_missing_append, List.filter_append]

/-- C10: the missing-path list is always the missing required directories
first (in schema declaration order, as `dpaths` enumerates them) followed by
the missing required files (in schema declaration order, as `fpaths`
enumerates them), never interleaved across kinds. -/
theorem find_missing_dirs_before_files (l : DatasetLayout) (fsExists : Path → Bool) :
    l.find_missing_paths fsExists
      = (l.get_paths true false).filter (fun p => !fsExists p)
        ++ (l.get_paths false false).filter (fun p => !fsExists p) := by
  unfold DatasetLayout.find_missing_paths
  rw [foldl_missing_append]
  rfl

/-- C2: `validate` returns `True` exactly when every required path exists; on
failure the error payload holds every missing required path and only missing
required paths, without duplicates when the required paths are pairwise
distinct, and the outcome only ever depends on the required (never the
optional) paths. -/
theorem validate_reports_all_missing (l : DatasetLayout) (fsExists : Path → Bool) :
    (l.validate fsExists = .ok true ↔ ∀ p ∈ l.dpaths ++ l.fpaths, fsExists p = true)
      ∧ (∀ e, l.validate fsExists = .error e →
          (∀ p, p ∈ e.missing ↔ p ∈ l.dpaths ++ l.fpaths ∧ fsExists p = false)
            ∧ ((l.dpaths ++ l.fpaths).Nodup → e.missing.Nodup)
            ∧ ∀ p ∈ e.missing, ∃ info ∈ l.config.path_infos,
                info._is_required = true ∧ p = l.get_full_path info.path)
      ∧ ∀ fsExists₂ : Path → Bool,
          (∀ p ∈ l.dpaths ++ l.fpaths, fsExists₂ p = fsExists p) →
          l.validate fsExists₂ = l.validate fsExists := by
  refine ⟨?_, ?_, ?_⟩
  · unfold DatasetLayout.validate
    rw [find_missing_paths_eq_filter]
    constructor
    · intro h p hp
      by_cases hlen : ((l.dpaths ++ l.fpaths).filter (fun p => !fsExists p)).length ≠ 0
      · rw [if_pos hlen] at h
        exact absurd h (by simp)
      · rw [Classical.not_not, List.length_eq_zero, List.filter_eq_nil_iff] at hlen
        have := hlen p hp
        simpa using this
    · intro h
      rw [if_neg]
      rw [Classical.not_not, List.length_eq_zero, List.filter_eq_nil_iff]
      intro p hp
      simp [h p hp]
  · intro e he
    have hmiss : e.missing = (l.dpaths ++ l.fpaths).filter (fun p => !fsExists p) := by
      unfold DatasetLayout.validate at he
      rw [find_missing_paths_eq_filter] at he
      by_cases hlen : ((l.dpaths ++ l.fpaths).filter (fun p => !fsExists p)).length ≠ 0
      · rw [if_pos hlen] at he
        cases he
        rfl
      · rw [if_neg hlen] at he
        exact absurd he (by simp)
    refine ⟨?_, ?_, ?_⟩
    · intro p
      rw [hmiss, List.mem_filter]
      simp
    · intro hnd
      rw [hmiss]
      exact hnd.filter _
    · intro p hp
      rw [hmiss, List.mem_filter] at hp
      rcases List.mem_append.mp hp.1 with hd | hf
      · unfold DatasetLayout.dpaths DatasetLayout.get_paths at hd
        rcases List.mem_map.mp hd with ⟨info, hinfo, hfull⟩
        rw [List.mem_filter] at hinfo
        refine ⟨info, hinfo.1, ?_, hfull.symm⟩
        have := hinfo.2
        simp only [Bool.and_eq_true, Bool.or_eq_true] at this
        rcases this.2 with h | h
        · cases h
        · exact h
      · unfold DatasetLayout.fpaths DatasetLayout.get_paths at hf
        rcases List.mem_map.mp hf with ⟨info, hinfo, hfull⟩
        rw [List.mem_filter] at hinfo
        refine ⟨info, hinfo.1, ?_, hfull.symm⟩
        have := hinfo.2
        simp only [Bool.and_eq_true, Bool.or_eq_true] at this
        rcases this.2 with h | h
        · cases h
        · exact h
  · intro fs₂ hagree
    unfold DatasetLayout.validate
    rw [find_missing_paths_eq_filter, find_missing_paths_eq_filter]
    rw [List.filter_congr (fun p hp => by rw [hagree p hp])]

/-- Witness for C2: on an empty filesystem the example layout's validation
fails with exactly the full required-path list, which has no duplicates. -/
theorem validate_reports_all_missing_witness :
    exampleLayout.validate (fun _ => false) = .error ⟨exampleMissing⟩
      ∧ exampleMissing.Nodup :=
  ⟨rfl,
    ((validate_reports_all_missing exampleLayout (fun _ => false)).2.1
        ⟨exampleMissing⟩ rfl).2.1 (by decide)⟩

/-- C3: loading a document that misses any required label fails with the
schema-validation error; loading a document with an extra label outside the
closed label set fails with the schema-validation error; loading the exact
default document succeeds, yielding the (immutable) default schema value. -/
theorem load_rejects_missing_and_extra_labels (doc : Document) :
    ((∃ label ∈ knownLabels, doc.lookupLabel label = none) →
        loadLayoutConfig doc = .error .schemaValidation)
      ∧ ((∃ e ∈ doc, e.1 ∉ knownLabels) →
        loadLayoutConfig doc = .error .schemaValidation)
      ∧ loadLayoutConfig defaultLayoutDocument = .ok defaultConfig := by
  refine ⟨?_, ?_, rfl⟩
  · rintro ⟨label, hmem, hnone⟩
    unfold loadLayoutConfig
    rw [if_neg]
    rintro ⟨-, hsome⟩
    have := hsome label hmem
    rw [hnone] at this
    cases this
  · rintro ⟨e, hmem, hout⟩
    unfold loadLayoutConfig
    rw [if_neg]
    rintro ⟨hall, -⟩
    exact hout (hall e hmem)

/-- Witness for C3 at `badDocument`, which misses `dpath_bids` and carries the
unknown label `bogus_label`. -/
theorem load_rejects_missing_and_extra_labels_witness :
    (∃ label ∈ knownLabels, badDocument.lookupLabel label = none)
      ∧ (∃ e ∈ badDocument, e.1 ∉ knownLabels)
      ∧ loadLayoutConfig badDocument = .error .schemaValidation
      ∧ loadLayoutConfig defaultLayoutDocument = .ok defaultConfig :=
  ⟨⟨"dpath_bids", by decide, rfl⟩,
   ⟨("bogus_label", ⟨["x"], none⟩), by decide, by decide⟩,
   (load_rejects_missing_and_extra_labels badDocument).1 ⟨"dpath_bids", by decide, rfl⟩,
   (load_rejects_missing_and_extra_labels badDocument).2.2⟩

/-- C8: with no schema-document path, construction uses the built-in default
document path; when the (given or default) document path does not exist in
the document filesystem, construction fails with the file-not-found error;
and construction never consults the filesystem under the dataset root — its
outcome is the same for every root, root existence included, with only the
stored `dpath_root` differing. -/
theorem init_default_document_and_root_independence
    (docFs : Path → Option Document) (root root₂ : Path) (p : Path)
    (cfgPath : Option Path) :
    DatasetLayout.init docFs root none = DatasetLayout.init docFs root (some FPATH_DEFAULT_LAYOUT)
      ∧ (docFs p = none →
          DatasetLayout.init docFs root (some p) = .error (.fileNotFound p))
      ∧ DatasetLayout.init docFs root cfgPath
          = (DatasetLayout.init docFs root₂ cfgPath).map (fun l => setRoot l root) := by
  refine ⟨rfl, ?_, ?_⟩
  · intro h
    unfold DatasetLayout.init
    simp [h]
  · unfold DatasetLayout.init
    cases docFs (cfgPath.getD FPATH_DEFAULT_LAYOUT) with
    | none => rfl
    | some doc =>
      dsimp only
      cases loadLayoutConfig doc with
      | error e => rfl
      | ok config => rfl

/-- Witness for C8 at the example document filesystem: the path
`nonexistent.json` holds no document, and construction on it fails. -/
theorem init_default_document_and_root_independence_witness :
    exampleDocFs ["nonexistent.json"] = none
      ∧ DatasetLayout.init exampleDocFs ["data", "study1"] (some ["nonexistent.json"])
          = .error (.fileNotFound ["nonexistent.json"]) :=
  ⟨rfl,
    (init_default_document_and_root_independence exampleDocFs ["data", "study1"]
        ["no", "root"] ["nonexistent.json"] none).2.1 rfl⟩

/-- Inversion of a successful construction: the stored root is the given one,
the pipeline directory names are the fixed convention strings, and the config
is the one loaded from the document found at the resolved config path. -/
theorem init_ok_fields (docFs : Path → Option Document) (root : Path)
    (cfgPath : Option Path) (l : DatasetLayout)
    (h : DatasetLayout.init docFs root cfgPath = .ok l) :
    l.dpath_root = root ∧ l.dname_pipeline_work = "work"
      ∧ l.dname_pipeline_output = "output"
      ∧ ∃ doc, docFs (cfgPath.getD FPATH_DEFAULT_LAYOUT) = some doc
          ∧ loadLayoutConfig doc = .ok l.config ∧ l.config = mkConfigOfDoc doc := by
  unfold DatasetLayout.init at h
  split at h
  · cases h
  · rename_i doc hfs
    split at h
    · cases h
    · rename_i config hload
      cases h
      refine ⟨rfl, rfl, rfl, doc, hfs, hload, ?_⟩
      unfold loadLayoutConfig at hload
      split at hload
      · cases hload
        rfl
      · cases hload

/-- C6: for every pipeline name, version and optional participant/session,
the pipeline work directory is the pipeline directory joined with `"work"`
and the pipeline tag — hence a subpath of `pipelineDirectory / "work"` — and
work directories for participants the tag formatter distinguishes are
distinct. -/
theorem pipeline_work_partitioned (docFs : Path → Option Document) (root : Path)
    (cfgPath : Option Path) (l : DatasetLayout) (n v : String)
    (p₁ p₂ s : Option String)
    (hinit : DatasetLayout.init docFs root cfgPath = .ok l)
    (htag : get_pipeline_tag n v p₁ s ≠ get_pipeline_tag n v p₂ s) :
    l.get_dpath_pipeline_work n v p₁ s
        = l.get_dpath_pipeline n v ++ ["work"] ++ [get_pipeline_tag n v p₁ s]
      ∧ (∃ rest, l.get_dpath_pipeline_work n v p₁ s
          = (l.get_dpath_pipeline n v ++ ["work"]) ++ rest)
      ∧ l.get_dpath_pipeline_work n v p₁ s ≠ l.get_dpath_pipeline_work n v p₂ s := by
  have hw := (init_ok_fields _ _ _ _ hinit).2.1
  have key : ∀ p : Option String, l.get_dpath_pipeline_work n v p s
      = l.get_dpath_pipeline n v ++ ["work"] ++ [get_pipeline_tag n v p s] := by
    intro p
    unfold DatasetLayout.get_dpath_pipeline_work
    rw [hw]
    simp
  refine ⟨key p₁, ⟨[get_pipeline_tag n v p₁ s], key p₁⟩, ?_⟩
  intro heq
  rw [key p₁, key p₂] at heq
  exact htag (by simpa using List.append_cancel_left heq)

/-- Witness for C6: `sub-01` and `sub-02` work directories under the example
layout for `fmriprep 23.1.3`, session `ses-1`. -/
theorem pipeline_work_partitioned_witness :
    get_pipeline_tag "fmriprep" "23.1.3" (some "sub-01") (some "ses-1")
        ≠ get_pipeline_tag "fmriprep" "23.1.3" (some "sub-02") (some "ses-1")
      ∧ (exampleLayout.get_dpath_pipeline_work "fmriprep" "23.1.3" (some "sub-01") (some "ses-1")
            = exampleLayout.get_dpath_pipeline "fmriprep" "23.1.3" ++ ["work"]
              ++ [get_pipeline_tag "fmriprep" "23.1.3" (some "sub-01") (some "ses-1")]
          ∧ (∃ rest,
              exampleLayout.get_dpath_pipeline_work "fmriprep" "23.1.3" (some "sub-01") (some "ses-1")
                = (exampleLayout.get_dpath_pipeline "fmriprep" "23.1.3" ++ ["work"]) ++ rest)
          ∧ exampleLayout.get_dpath_pipeline_work "fmriprep" "23.1.3" (some "sub-01") (some "ses-1")
              ≠ exampleLayout.get_dpath_pipeline_work "fmriprep" "23.1.3" (some "sub-02") (some "ses-1")) :=
  ⟨by decide,
    pipeline_work_partitioned exampleDocFs ["data", "study1"] none exampleLayout
      "fmriprep" "23.1.3" (some "sub-01") (some "sub-02") (some "ses-1")
      exampleLayout_init (by decide)⟩

/-- C7: the pipeline output directory is the pipeline directory joined with
`"output"`, and it is fully determined by the dataset root, the schema's
derivatives entry, and the pipeline name and version alone — no participant
or session enters (the operation takes none). -/
theorem pipeline_output_participant_independent (docFs : Path → Option Document)
    (root : Path) (cfgPath : Option Path) (l : DatasetLayout) (n v : String)
    (hinit : DatasetLayout.init docFs root cfgPath = .ok l) :
    l.get_dpath_pipeline_output n v = l.get_dpath_pipeline n v ++ ["output"]
      ∧ l.get_dpath_pipeline_output n v
          = l.dpath_root ++ l.config.dpath_derivatives.path ++ [n, v, "output"] := by
  have hout := (init_ok_fields _ _ _ _ hinit).2.2.1
  constructor
  · unfold DatasetLayout.get_dpath_pipeline_output
    rw [hout]
  · unfold DatasetLayout.get_dpath_pipeline_output DatasetLayout.get_dpath_pipeline
      DatasetLayout.get_full_path
    rw [hout]
    simp [List.append_assoc]

/-- Witness for C7 at the example layout and `fmriprep 23.1.3`. -/
theorem pipeline_output_participant_independent_witness :
    exampleLayout.get_dpath_pipeline_output "fmriprep" "23.1.3"
        = exampleLayout.get_dpath_pipeline "fmriprep" "23.1.3" ++ ["output"]
      ∧ exampleLayout.get_dpath_pipeline_output "fmriprep" "23.1.3"
          = exampleLayout.dpath_root ++ exampleLayout.config.dpath_derivatives.path
            ++ ["fmriprep", "23.1.3", "output"] :=
  pipeline_output_participant_independent exampleDocFs ["data", "study1"] none
    exampleLayout "fmriprep" "23.1.3" exampleLayout_init

/-- C9: in any loaded schema every directory entry is required — only the two
optional-file entries `fpath_doughnut` and `fpath_imaging_bagel` are optional
— so `get_paths` over directories returns the same list with and without
`include_optional`, and filtering `dpath_descriptions` further by
`_is_required` would change nothing. -/
theorem directory_entries_always_required (docFs : Path → Option Document)
    (root : Path) (cfgPath : Option Path) (l : DatasetLayout)
    (hinit : DatasetLayout.init docFs root cfgPath = .ok l) :
    (∀ info ∈ l.config.path_infos, info._is_directory = true → info._is_required = true)
      ∧ l.config.fpath_doughnut._is_required = false
      ∧ l.config.fpath_imaging_bagel._is_required = false
      ∧ (∀ info ∈ l.config.path_infos, info._is_required = false →
          info = l.config.fpath_doughnut ∨ info = l.config.fpath_imaging_bagel)
      ∧ l.get_paths true true = l.get_paths true false
      ∧ l.dpath_descriptions
          = (l.config.path_infos.filter
              (fun info => info._is_directory && info._is_required
                && info.description.isSome)).map
            (fun info => (l.get_full_path info.path, info.description)) := by
  obtain ⟨-, -, -, doc, -, -, hcfg⟩ := init_ok_fields _ _ _ _ hinit
  have hdir : ∀ info ∈ l.config.path_infos,
      info._is_directory = true → info._is_required = true := by
    rw [hcfg]
    intro info hinfo
    simp only [LayoutConfig.path_infos, mkConfigOfDoc, List.mem_cons,
      List.not_mem_nil, or_false] at hinfo
    rcases hinfo with rfl | rfl | rfl | rfl | rfl | rfl | rfl | rfl | rfl | rfl | rfl |
      rfl | rfl | rfl | rfl | rfl | rfl | rfl | rfl | rfl | rfl | rfl | rfl
    all_goals simp [Document.entryInfo, DpathInfo, FpathInfo, OptionalFpathInfo]
  refine ⟨hdir, ?_, ?_, ?_, ?_, ?_⟩
  · rw [hcfg]
    rfl
  · rw [hcfg]
    rfl
  · rw [hcfg]
    intro info hinfo
    simp only [LayoutConfig.path_infos, mkConfigOfDoc, List.mem_cons,
      List.not_mem_nil, or_false] at hinfo
    rcases hinfo with rfl | rfl | rfl | rfl | rfl | rfl | rfl | rfl | rfl | rfl | rfl |
      rfl | rfl | rfl | rfl | rfl | rfl | rfl | rfl | rfl | rfl | rfl | rfl
    all_goals simp [mkConfigOfDoc, Document.entryInfo, DpathInfo, FpathInfo, OptionalFpathInfo]
  · unfold DatasetLayout.get_paths
    congr 1
    apply List.filter_congr
    intro info hinfo
    cases hd : info._is_directory with
    | false => simp [hd]
    | true => simp [hd, hdir info hinfo hd]
  · unfold DatasetLayout.dpath_descriptions
    congr 1
    apply List.filter_congr
    intro info hinfo
    cases hd : info._is_directory with
    | false => simp [hd]
    | true => simp [hd, hdir info hinfo hd]

/-- Witness for C9 at the example layout: optional inclusion does not change
the directory-path list. -/
theorem directory_entries_always_required_witness :
    exampleLayout.config.fpath_doughnut._is_required = false
      ∧ exampleLayout.config.fpath_imaging_bagel._is_required = false
      ∧ exampleLayout.get_paths true true = exampleLayout.get_paths true false :=
  ⟨(directory_entries_always_required exampleDocFs ["data", "study1"] none
      exampleLayout exampleLayout_init).2.1,
   (directory_entries_always_required exampleDocFs ["data", "study1"] none
      exampleLayout exampleLayout_init).2.2.1,
   (directory_entries_always_required exampleDocFs ["data", "study1"] none
      exampleLayout exampleLayout_init).2.2.2.2.1⟩

end Nipoppy
